import Mathlib

/-
Verification development for the dapi REST client
(src/dapi/rest/{route,client,errors,builders,response}.py).
The Python code is shallowly embedded: pure functions become Lean
functions, the stateful dispatch loop becomes an explicit step function
over an oracle of HTTP responses, and Python exceptions become
explicit outcome constructors / Option / Except failures.
-/

namespace DapiSpec

/- ===== JSON values =====
A Python value as produced by jsonlib.loads.  Mutual inductives are used
so that the recursive traversals below are structurally recursive.
Numbers are modelled as rationals (Python floats/ints as used by the
client: retry_after durations and error codes). -/

mutual

inductive J where
  | b : Bool → J
  | n : ℚ → J
  | s : String → J
  | nul : J
  | obj : JFields → J
  | arr : JElems → J

inductive JFields where
  | nil : JFields
  | cons : String → J → JFields → JFields

inductive JElems where
  | nil : JElems
  | cons : J → JElems → JElems

end

/-- Dictionary lookup on JSON object fields (Python `d[k]` / `d.get(k)`;
keys in a Python dict are unique, so first match is the match). -/
def getField : JFields → String → Option J
  | JFields.nil, _ => none
  | JFields.cons k v rest, key => if k = key then some v else getField rest key

/-- Python subscript `item[k]` where `item` must be a dict; any other
type raises TypeError, modelled as `none`. -/
def getMember : J → String → Option J
  | J.obj fs, k => getField fs k
  | _, _ => none

/-- Python truthiness of a JSON value (used by `if data.get("global", False):`). -/
def truthy : J → Bool
  | J.b v => v
  | J.n q => decide (q ≠ 0)
  | J.s t => decide (t ≠ "")
  | J.nul => false
  | J.obj JFields.nil => false
  | J.obj (JFields.cons _ _ _) => true
  | J.arr JElems.nil => false
  | J.arr (JElems.cons _ _) => true

/- ===== errors.py: flatten =====
`flatten(d, path)` walks the nested error payload.  A Python exception
escaping the traversal (KeyError / TypeError on a malformed `_errors`
entry) is modelled as `none`.  An emitted item is
`(path without its leading separator, item["message"], item["code"])`,
exactly the tuple `(path[1:], (item["message"], item["code"]))`. -/

/-- Emits one triple per entry of an `_errors` array: Python
`for item in v: items.append((path[1:], (item["message"], item["code"])))`.
A non-dict entry or a missing key raises, modelled as `none`. -/
def errItems (path : String) : JElems → Option (List (String × J × J))
  | JElems.nil => some []
  | JElems.cons it rest =>
    match getMember it "message", getMember it "code" with
    | some m, some c => (errItems path rest).map (fun tl => (path.drop 1, m, c) :: tl)
    | _, _ => none

/-- Handling of the value under an `_errors` key.  Python iterates `v`:
a list yields its entries; an empty dict or empty string yields no
iterations (no items, no exception); every other value raises a
TypeError before any item is emitted, modelled as `none`. -/
def errsFor (path : String) : J → Option (List (String × J × J))
  | J.arr es => errItems path es
  | J.obj JFields.nil => some []
  | J.s t => if t = "" then some [] else none
  | _ => none

mutual

/-- One loop of `flatten` over the items of a dict: for each `(k, v)`,
first the `_errors` check emits triples, then the function recurses into
dict- and list-valued children with the path extended by `":" ++ k`. -/
def flattenFields (path : String) : JFields → Option (List (String × J × J))
  | JFields.nil => some []
  | JFields.cons k v rest =>
    match (if k = "_errors" then errsFor path v else some []) with
    | none => none
    | some errs =>
      match flattenChild (path ++ ":" ++ k) v with
      | none => none
      | some sub =>
        match flattenFields path rest with
        | none => none
        | some tl => some (errs ++ sub ++ tl)

/-- The loop over an ItemsList view of a list: `ItemsList.items` yields
`(str(n), item)`, so the key is the stringified index (never equal to
the literal key checked by the `_errors` branch). -/
def flattenElems (path : String) (i : Nat) : JElems → Option (List (String × J × J))
  | JElems.nil => some []
  | JElems.cons v rest =>
    match flattenChild (path ++ ":" ++ toString i) v with
    | none => none
    | some sub =>
      match flattenElems path (i + 1) rest with
      | none => none
      | some tl => some (sub ++ tl)

/-- Recursion into a child value: `if isinstance(v, dict): ... elif
isinstance(v, list): ...`; scalars are not recursed into. -/
def flattenChild (path : String) : J → Option (List (String × J × J))
  | J.obj fs => flattenFields path fs
  | J.arr es => flattenElems path 0 es
  | _ => some []

end

/-- Top-level `flatten(d)` with the default starting path `""`. -/
def flatten (fs : JFields) : Option (List (String × J × J)) :=
  flattenFields "" fs

/- ===== route.py: Route ===== -/

/-- A route parameter value.  The client passes strings and integers
(snowflake IDs); both are coerced with `str(...)` when the bucket key
is built and with `format` when the URL is interpolated. -/
inductive PVal where
  | pstr : String → PVal
  | pint : Int → PVal
deriving DecidableEq

/-- Python `str(...)` of a parameter value. -/
def PVal.pyStr : PVal → String
  | PVal.pstr t => t
  | PVal.pint i => toString i

/-- Codepoint-lexicographic string order, the order Python uses to
compare the (unique) parameter keys. -/
def lexLe : List Char → List Char → Bool
  | [], _ => true
  | _ :: _, [] => false
  | c :: cs, d :: ds =>
    if c.toNat < d.toNat then true
    else if d.toNat < c.toNat then false
    else lexLe cs ds

def strLe (a b : String) : Bool := lexLe a.data b.data

/-- Insertion step of the key sort used by the Route constructor. -/
def insertSorted (p : String × PVal) : List (String × PVal) → List (String × PVal)
  | [] => [p]
  | q :: rest => if strLe p.1 q.1 then p :: q :: rest else q :: insertSorted p rest

/-- Python `dict(sorted(params.items()))`: the parameters are stored in
ascending key order (kwargs keys are unique, so comparing keys is the
whole comparison). -/
def sortParams : List (String × PVal) → List (String × PVal)
  | [] => []
  | p :: rest => insertSorted p (sortParams rest)

def BASE_URL : String := "https://discord.com/api/v10"

structure Route where
  method : String
  path : String
  params : List (String × PVal)

/-- Route.__init__: stores the method, the raw path template, and the
parameters sorted by key. -/
def Route.make (method path : String) (params : List (String × PVal)) : Route :=
  { method := method, path := path, params := sortParams params }

/-- Python `":".join(...)`. -/
def joinColon : List String → String
  | [] => ""
  | [x] => x
  | x :: y :: rest => x ++ ":" ++ joinColon (y :: rest)

/-- Python `":".join(map(str, self.params.values()))`. -/
def joinedVals (ps : List (String × PVal)) : String :=
  joinColon (ps.map fun p => p.2.pyStr)

/-- Route.bucket: the joined stringified parameter values, a colon, and
the raw (uninterpolated) path template. -/
def Route.bucket (r : Route) : String :=
  joinedVals r.params ++ ":" ++ r.path

/- ===== route.py: Route.url via str.format_map =====
`self.path.format_map(self.params)` is modelled for templates made of
literal characters, doubled-brace escapes and plain named fields
\x7bname\x7d (the only form the client's route templates use; no
conversion or format-spec syntax).  A missing key raises KeyError (the
spec's TemplateError); a malformed template raises ValueError.  The
template is parsed into segments and then rendered; for well-formed
templates this agrees with Python's sequential scan. -/

inductive Seg where
  | lit : Char → Seg
  | ph : String → Seg
deriving DecidableEq

inductive FmtError where
  | keyError : String → FmtError
  | valueError : FmtError
deriving DecidableEq

/-- Template scanner.  First argument: `none` while scanning literal
text, `some acc` while accumulating a field name inside braces
(accumulated in reverse). -/
def parseAux : Option (List Char) → List Char → Option (List Seg)
  | none, [] => some []
  | none, '\x7b' :: '\x7b' :: rest => (parseAux none rest).map (fun t => Seg.lit '\x7b' :: t)
  | none, '\x7d' :: '\x7d' :: rest => (parseAux none rest).map (fun t => Seg.lit '\x7d' :: t)
  | none, '\x7b' :: rest => parseAux (some []) rest
  | none, '\x7d' :: _ => none
  | none, c :: rest => (parseAux none rest).map (fun t => Seg.lit c :: t)
  | some _, [] => none
  | some acc, '\x7d' :: rest =>
      (parseAux none rest).map (fun t => Seg.ph (String.mk acc.reverse) :: t)
  | some acc, c :: rest => parseAux (some (c :: acc)) rest

def parseTemplate (t : String) : Option (List Seg) :=
  parseAux none t.data

/-- Lookup of a placeholder name among the route parameters (a Python
dict lookup; kwargs keys are unique). -/
def lookupParam : List (String × PVal) → String → Option PVal
  | [], _ => none
  | (k, v) :: rest, key => if k = key then some v else lookupParam rest key

/-- Rendering one segment: a literal character stands for itself, a
field is replaced by the stringified parameter; a missing parameter is
the KeyError raised by format_map. -/
def renderSeg (ps : List (String × PVal)) : Seg → Except FmtError (List Char)
  | Seg.lit c => Except.ok [c]
  | Seg.ph name =>
    match lookupParam ps name with
    | some v => Except.ok v.pyStr.data
    | none => Except.error (FmtError.keyError name)

/-- Rendering a whole segment list, failing at the first failing
segment, as the sequential format_map scan does. -/
def renderAll (ps : List (String × PVal)) : List Seg → Except FmtError (List Char)
  | [] => Except.ok []
  | seg :: rest =>
    match renderSeg ps seg with
    | Except.error e => Except.error e
    | Except.ok cs =>
      match renderAll ps rest with
      | Except.error e => Except.error e
      | Except.ok tl => Except.ok (cs ++ tl)

/-- `template.format_map(params)`. -/
def formatMap (t : String) (ps : List (String × PVal)) : Except FmtError String :=
  match parseTemplate t with
  | none => Except.error FmtError.valueError
  | some segs => (renderAll ps segs).map String.mk

/-- Route.url: `BASE_URL + self.path.format_map(self.params)`. -/
def Route.url (r : Route) : Except FmtError String :=
  (formatMap r.path r.params).map (fun t => BASE_URL ++ t)

/-- The placeholder names of a parsed template. -/
def phNames (segs : List Seg) : List String :=
  segs.filterMap fun sg => match sg with | Seg.ph name => some name | Seg.lit _ => none

/- ===== client.py: header preparation =====
Python dicts are modelled as association lists with unique keys in
insertion order; `d[k] = v` replaces the value of an existing key in
place and otherwise appends. -/

/-- Python `d[k] = v` on a dict. -/
def dinsert : List (String × String) → String → String → List (String × String)
  | [], k, v => [(k, v)]
  | (k0, v0) :: rest, k, v =>
    if k0 = k then (k0, v) :: rest else (k0, v0) :: dinsert rest k v

/-- Python `d.get(k)` / `d[k]` lookup. -/
def lookupH : List (String × String) → String → Option String
  | [], _ => none
  | (k0, v0) :: rest, k => if k0 = k then some v0 else lookupH rest k

/-- Header preparation at the top of RESTClient.request: start from a
copy of the caller's headers (or an empty dict), then overwrite
Authorization and User-Agent, set Content-Type from the payload kind
(form takes precedence over JSON), and set the audit reason if given. -/
def requestHeaders (caller : Option (List (String × String))) (token ua : String)
    (hasForm hasJson : Bool) (reason : Option String) : List (String × String) :=
  let h0 := match caller with
    | some d => d
    | none => []
  let h1 := dinsert h0 "Authorization" ("Bot " ++ token)
  let h2 := dinsert h1 "User-Agent" ua
  let h3 :=
    if hasForm then dinsert h2 "Content-Type" "multipart/form-data"
    else if hasJson then dinsert h2 "Content-Type" "application/json"
    else h2
  match reason with
  | some r => dinsert h3 "X-Audit-Log-Reason" r
  | none => h3

/-- The header-preparation step of request paired with the caller's own
mapping after the step.  The source rebinds the local name to a fresh
dict (a splat copy), so every later write goes to the copy and the
caller's mapping is returned unchanged. -/
def requestHeadersStep (caller : Option (List (String × String))) (token ua : String)
    (hasForm hasJson : Bool) (reason : Option String) :
    List (String × String) × Option (List (String × String)) :=
  (requestHeaders caller token ua hasForm hasJson reason, caller)

/- ===== builders.py ===== -/

/-- One multipart field as stored by FormBuilder.add_field. -/
structure FormField where
  name : String
  value : J
  contentType : String
  filename : Option String
  contentTransferEncoding : Option String

/-- FormBuilder: a sequence of fields; build() turns them into the form
data object handed to the HTTP session, field for field in order. -/
structure FormBuilder where
  fields : List FormField

def FormBuilder.build (f : FormBuilder) : List FormField := f.fields

/-- JSONBuilder: a JSON object under construction; build() deep-copies
the mapping, which for the pure model is the identity. -/
structure JSONBuilder where
  inner : List (String × J)

def JSONBuilder.build (b : JSONBuilder) : List (String × J) := b.inner

/- ===== client.py: the keyword arguments given to session.request ===== -/

structure Kwargs where
  headers : List (String × String)
  data : Option (List FormField)
  json : Option (List (String × J))
  params : Option (List (String × String))

/-- The kwargs assembled inside the retry loop: `data` is present iff a
form was given, `json` is present iff a JSON builder was given, `params`
iff query parameters were given.  The three conditions are independent
(three separate if statements in the source). -/
def buildKwargs (headers : List (String × String)) (form : Option FormBuilder)
    (json : Option JSONBuilder) (params : Option (List (String × String))) : Kwargs :=
  { headers := headers
    data := form.map FormBuilder.build
    json := json.map JSONBuilder.build
    params := params }

/-- Headers and kwargs of a dispatched call, combined. -/
def prepareCall (caller : Option (List (String × String))) (token ua : String)
    (form : Option FormBuilder) (json : Option JSONBuilder)
    (params : Option (List (String × String))) (reason : Option String) : Kwargs :=
  buildKwargs (requestHeaders caller token ua form.isSome json.isSome reason)
    form json params

/- ===== client.py: client construction and the global gate ===== -/

/-- The relevant state of an asyncio.Event: whether it is set.  A newly
constructed Event starts unset; `wait()` returns immediately exactly
when the flag is set, and otherwise suspends until some task calls
`set()`. -/
structure GlobalEvent where
  isSet : Bool

/-- `asyncio.Event()`. -/
def newEvent : GlobalEvent := { isSet := false }

structure ClientState where
  buckets : List (String × Bool)
  globalRatelimit : GlobalEvent

/-- RESTClient.__attrs_post_init__: an empty bucket table and a fresh
(unset) Event; no call to `set()` is made. -/
def attrsPostInit : ClientState :=
  { buckets := [], globalRatelimit := newEvent }

/- ===== client.py: the dispatch loop =====
The network is an oracle `resp : Nat → HttpResponse` giving the
response to the attempt with that index, and JSON decoding of a body is
an oracle `decode : String → Option J` standing for jsonlib.loads
(`none` = JSONDecodeError).  Suspensions and lock traffic are recorded
as a trace of events. -/

/-- The parts of an aiohttp response the loop consults.  The
reset-after header is carried already parsed as a rational (the code
applies `float` to the header string); `none` means the header is
absent, in which case `float(None)` raises a TypeError. -/
structure HttpResponse where
  status : Nat
  body : String
  contentType : Option String
  ratelimitRemaining : Option String
  ratelimitResetAfter : Option ℚ

/-- response.py Response: status, raw body text, content type. -/
structure Response where
  code : Nat
  data : String
  contentType : String

/-- The data carried by an HTTPException: the raw text when the body
does not decode, the decoded value when it does. -/
inductive HTTPData where
  | raw : String → HTTPData
  | parsed : J → HTTPData

/-- How one call to RESTClient.request ends. -/
inductive Outcome where
  | ok : Response → Outcome
  | httpError : Nat → HTTPData → Outcome
  | tooMany : Outcome
  | blockedOnGlobal : Outcome
  | pyError : Outcome

/-- Observable events of one call: lock acquisition, an immediate
`lock.release()`, a deferred release scheduled with
`call_later(resetAfter, lock.release)`, clearing/setting the global
Event, and an `asyncio.sleep` of the given duration. -/
inductive Ev where
  | lockAcquire : Ev
  | lockRelease : Ev
  | lockDeferredRelease : ℚ → Ev
  | globalClear : Ev
  | globalSet : Ev
  | sleep : ℚ → Ev
deriving DecidableEq

/-- Whether a trace ever releases the bucket lock, immediately or via a
scheduled deferred release. -/
def releasesLockB (evs : List Ev) : Bool :=
  evs.any fun e =>
    match e with
    | Ev.lockRelease => true
    | Ev.lockDeferredRelease _ => true
    | _ => false

/-- Result of one iteration of the retry loop: retry with the recorded
events (a 429 with decodable payload), or terminate with an outcome and
the recorded events. -/
inductive StepRes where
  | retry : List Ev → StepRes
  | done : Outcome → List Ev → StepRes

/-- The release action of the non-429 path: a deferred release when the
remaining-requests header reads "0" (requiring the reset-after header,
whose absence is a TypeError from `float(None)`), else an immediate
release. -/
def relAction (r : HttpResponse) : Option Ev :=
  if r.ratelimitRemaining = some "0" then
    r.ratelimitResetAfter.map Ev.lockDeferredRelease
  else some Ev.lockRelease

/-- One iteration of the retry loop of RESTClient.request, lines
126-181: dispatch on the status; for a 429, parse the body (release and
raise HTTPException on decode failure), clear the global Event when the
payload says global, sleep retry_after, re-set the Event, and retry;
otherwise release the bucket (immediately or deferred per the headers)
and then either return a Response (2xx) or raise HTTPException with the
best-effort-decoded body. -/
def step (decode : String → Option J) (r : HttpResponse) : StepRes :=
  if r.status = 429 then
    match decode r.body with
    | none => StepRes.done (Outcome.httpError r.status (HTTPData.raw r.body)) [Ev.lockRelease]
    | some data =>
      match data with
      | J.obj fs =>
        let g := truthy ((getField fs "global").getD (J.b false))
        let pre := if g then [Ev.globalClear] else []
        match getField fs "retry_after" with
        | some (J.n q) =>
          StepRes.retry (pre ++ [Ev.sleep q] ++ if g then [Ev.globalSet] else [])
        | some _ => StepRes.done Outcome.pyError pre
        | none => StepRes.done Outcome.pyError pre
      | _ => StepRes.done Outcome.pyError []
  else
    match relAction r with
    | none => StepRes.done Outcome.pyError []
    | some rel =>
      if 200 ≤ r.status ∧ r.status < 300 then
        match r.contentType with
        | some ct => StepRes.done (Outcome.ok { code := r.status, data := r.body, contentType := ct }) [rel]
        | none => StepRes.done Outcome.pyError [rel]
      else
        match decode r.body with
        | some d => StepRes.done (Outcome.httpError r.status (HTTPData.parsed d)) [rel]
        | none => StepRes.done (Outcome.httpError r.status (HTTPData.raw r.body)) [rel]

/-- `for _ in range(5)` unrolled on remaining fuel: attempt `i` consumes
`resp i`; when the fuel runs out the loop falls through to
`raise TooManyRetries(...)` - note that this exit performs no lock
release of any kind. -/
def runAttempts (decode : String → Option J) (resp : Nat → HttpResponse) :
    Nat → Nat → Outcome × List Ev
  | 0, _ => (Outcome.tooMany, [])
  | fuel + 1, i =>
    match step decode (resp i) with
    | StepRes.done out evs => (out, evs)
    | StepRes.retry evs =>
      let r := runAttempts decode resp fuel (i + 1)
      (r.1, evs ++ r.2)

/-- One call to RESTClient.request on a route's bucket: the bucket lock
is acquired, then the caller waits on the global Event; if the Event is
unset the task suspends there (holding the lock) until some other task
sets it - with no such task the call never proceeds, modelled as the
blockedOnGlobal outcome.  If the gate is open the retry loop runs with
a budget of 5 attempts. -/
def request (decode : String → Option J) (globalOpen : Bool)
    (resp : Nat → HttpResponse) : Outcome × List Ev :=
  if globalOpen then
    let r := runAttempts decode resp 5 0
    (r.1, Ev.lockAcquire :: r.2)
  else (Outcome.blockedOnGlobal, [Ev.lockAcquire])

/-- A 429 payload `retry_after: d, global: g` as decoded from a valid
rate-limit body. -/
def payload429 (g : Bool) (d : ℚ) : J :=
  J.obj (JFields.cons "global" (J.b g) (JFields.cons "retry_after" (J.n d) JFields.nil))

/- ===== concrete instances used by closed theorems and witnesses ===== -/

/-- Decoder for a server that answers the body "rl" with a valid
non-global payload whose retry_after is 0. -/
def demoDecode429 : String → Option J :=
  fun t => if t = "rl" then some (payload429 false 0) else none

def demo429Resp : HttpResponse :=
  { status := 429, body := "rl", contentType := none
    ratelimitRemaining := none, ratelimitResetAfter := none }

/-- A decoder for bodies that are not valid JSON. -/
def decodeNone : String → Option J := fun _ => none

/-- A 2xx response whose remaining-requests header reads "0" and whose
reset-after header reads 2 seconds. -/
def demoRespDeferred : HttpResponse :=
  { status := 200, body := "ok", contentType := some "application/json"
    ratelimitRemaining := some "0", ratelimitResetAfter := some 2 }

/-- A 2xx response without rate-limit headers. -/
def demoRespImmediate : HttpResponse :=
  { status := 200, body := "ok", contentType := some "application/json"
    ratelimitRemaining := none, ratelimitResetAfter := none }

/-- Decoder for a server that answers the body "r4" with a valid
non-global payload whose retry_after is 1. -/
def demoDecode1 : String → Option J :=
  fun t => if t = "r4" then some (payload429 false 1) else none

def demoResp4 : HttpResponse :=
  { status := 429, body := "r4", contentType := none
    ratelimitRemaining := none, ratelimitResetAfter := none }

/-- A 429 response whose body is not valid JSON. -/
def demoBad429 : HttpResponse :=
  { status := 429, body := "oops not json", contentType := none
    ratelimitRemaining := none, ratelimitResetAfter := none }

def demoForm : FormBuilder :=
  { fields := [{ name := "file", value := J.s "bytes"
                 contentType := "application/octet-stream"
                 filename := some "a.png", contentTransferEncoding := none }] }

def demoJson : JSONBuilder := { inner := [("content", J.s "hi")] }

/-- Two routes with the same template and differing, differently
stringifying parameter values whose bucket keys nevertheless coincide,
because a parameter value contains the join separator. -/
def routeColA : Route := Route.make "GET" "/t" [("a", PVal.pstr "x:y"), ("b", PVal.pstr "z")]

def routeColB : Route := Route.make "GET" "/t" [("a", PVal.pstr "x"), ("b", PVal.pstr "y:z")]

/-- The spec's first flatten example. -/
def errInput1 : JFields :=
  JFields.cons "username"
    (J.obj (JFields.cons "_errors"
      (J.arr (JElems.cons
        (J.obj (JFields.cons "message" (J.s "too long")
          (JFields.cons "code" (J.s "LEN") JFields.nil)))
        JElems.nil))
      JFields.nil))
    JFields.nil

/-- The spec's second flatten example, with the error nested under a
list index. -/
def errInput2 : JFields :=
  JFields.cons "embeds"
    (J.arr (JElems.cons
      (J.obj (JFields.cons "_errors"
        (J.arr (JElems.cons
          (J.obj (JFields.cons "message" (J.s "bad url")
            (JFields.cons "code" (J.s "URL") JFields.nil)))
          JElems.nil))
        JFields.nil))
      JElems.nil))
    JFields.nil

def demoOkRoute : Route := Route.make "GET" "/c/\x7bid\x7d" [("id", PVal.pint 7)]

def demoOkSegs : List Seg := [Seg.lit '/', Seg.lit 'c', Seg.lit '/', Seg.ph "id"]

def demoMissRoute : Route := Route.make "GET" "/c/\x7bid\x7d" []

end DapiSpec

namespace DapiSpec

theorem lookupH_dinsert_self (d : List (String × String)) (k v : String) :
    lookupH (dinsert d k v) k = some v := by
  induction d with
  | nil => simp [dinsert, lookupH]
  | cons p rest ih =>
    obtain ⟨k0, v0⟩ := p
    by_cases h : k0 = k
    · simp [dinsert, lookupH, h]
    · simp [dinsert, lookupH, h, ih]

theorem lookupH_dinsert_ne (d : List (String × String)) (k' v k : String) (h : k' ≠ k) :
    lookupH (dinsert d k' v) k = lookupH d k := by
  induction d with
  | nil => simp [dinsert, lookupH, h]
  | cons p rest ih =>
    obtain ⟨k0, v0⟩ := p
    by_cases h0 : k0 = k'
    · subst h0
      simp [dinsert, lookupH, h]
    · simp [dinsert, lookupH, h0, ih]

theorem str_append_cancel_iff (a b t : String) : a ++ t = b ++ t ↔ a = b := by
  constructor
  · intro h
    have hd := congrArg String.data h
    rw [String.data_append, String.data_append] at hd
    have := List.append_cancel_right hd
    cases a; cases b; simp_all
  · intro h; rw [h]

end DapiSpec

namespace DapiSpec

theorem requestHeaders_auth (caller : Option (List (String × String))) (token ua : String)
    (hasForm hasJson : Bool) (reason : Option String) :
    lookupH (requestHeaders caller token ua hasForm hasJson reason) "Authorization"
      = some ("Bot " ++ token) := by
  cases reason <;> cases hasForm <;> cases hasJson <;>
    simp [requestHeaders, lookupH_dinsert_self,
      lookupH_dinsert_ne _ "X-Audit-Log-Reason" _ "Authorization" (by decide),
      lookupH_dinsert_ne _ "Content-Type" _ "Authorization" (by decide),
      lookupH_dinsert_ne _ "User-Agent" _ "Authorization" (by decide)]

theorem requestHeaders_ua (caller : Option (List (String × String))) (token ua : String)
    (hasForm hasJson : Bool) (reason : Option String) :
    lookupH (requestHeaders caller token ua hasForm hasJson reason) "User-Agent" = some ua := by
  cases reason <;> cases hasForm <;> cases hasJson <;>
    simp [requestHeaders, lookupH_dinsert_self,
      lookupH_dinsert_ne _ "X-Audit-Log-Reason" _ "User-Agent" (by decide),
      lookupH_dinsert_ne _ "Content-Type" _ "User-Agent" (by decide)]

theorem requestHeaders_ct_form (caller : Option (List (String × String))) (token ua : String)
    (hasJson : Bool) (reason : Option String) :
    lookupH (requestHeaders caller token ua true hasJson reason) "Content-Type"
      = some "multipart/form-data" := by
  cases reason <;> cases hasJson <;>
    simp [requestHeaders, lookupH_dinsert_self,
      lookupH_dinsert_ne _ "X-Audit-Log-Reason" _ "Content-Type" (by decide)]

end DapiSpec

namespace DapiSpec

theorem runAttempts_succ (decode : String → Option J) (resp : Nat → HttpResponse)
    (fuel i : Nat) :
    runAttempts decode resp (fuel + 1) i =
      match step decode (resp i) with
      | StepRes.done out evs => (out, evs)
      | StepRes.retry evs =>
        let r := runAttempts decode resp fuel (i + 1)
        (r.1, evs ++ r.2) := rfl

theorem runAttempts_five (decode : String → Option J) (resp : Nat → HttpResponse) :
    runAttempts decode resp 5 0 =
      match step decode (resp 0) with
      | StepRes.done out evs => (out, evs)
      | StepRes.retry evs =>
        let r := runAttempts decode resp 4 1
        (r.1, evs ++ r.2) := rfl

theorem request_done (decode : String → Option J) (resp : Nat → HttpResponse)
    (out : Outcome) (evs : List Ev) (h : step decode (resp 0) = StepRes.done out evs) :
    request decode true resp = (out, Ev.lockAcquire :: evs) := by
  simp [request, runAttempts_five, h]

theorem step_429_valid (decode : String → Option J) (r : HttpResponse) (d : ℚ)
    (h1 : r.status = 429) (h2 : decode r.body = some (payload429 false d)) :
    step decode r = StepRes.retry [Ev.sleep d] := by
  simp [step, h1, h2, payload429, getField, truthy]

theorem step_429_nodecode (decode : String → Option J) (r : HttpResponse)
    (h1 : r.status = 429) (h2 : decode r.body = none) :
    step decode r = StepRes.done (Outcome.httpError 429 (HTTPData.raw r.body)) [Ev.lockRelease] := by
  simp [step, h1, h2]

theorem step_non429 (decode : String → Option J) (r : HttpResponse) (rel : Ev)
    (h : ¬ r.status = 429) (hrel : relAction r = some rel) :
    ∃ out, step decode r = StepRes.done out [rel] := by
  by_cases h2 : 200 ≤ r.status ∧ r.status < 300
  · cases hct : r.contentType with
    | none => exact ⟨Outcome.pyError, by simp [step, h, hrel, h2, hct]⟩
    | some ct =>
      exact ⟨Outcome.ok { code := r.status, data := r.body, contentType := ct },
        by simp [step, h, hrel, h2, hct]⟩
  · cases hd : decode r.body with
    | none => exact ⟨Outcome.httpError r.status (HTTPData.raw r.body),
        by simp [step, h, hrel, h2, hd]⟩
    | some d => exact ⟨Outcome.httpError r.status (HTTPData.parsed d),
        by simp [step, h, hrel, h2, hd]⟩

end DapiSpec

namespace DapiSpec

theorem runAttempts_all_retry (decode : String → Option J) (resp : Nat → HttpResponse)
    (ev : Nat → List Ev) :
    ∀ fuel i, (∀ k, k < fuel → step decode (resp (i + k)) = StepRes.retry (ev (i + k))) →
      runAttempts decode resp fuel i =
        (Outcome.tooMany, ((List.range fuel).map (fun k => ev (i + k))).flatten) := by
  intro fuel
  induction fuel with
  | zero => intro i _; simp [runAttempts]
  | succ fuel ih =>
    intro i h
    have h0 := h 0 (by omega)
    simp only [Nat.add_zero] at h0
    have hrest : ∀ k, k < fuel → step decode (resp ((i + 1) + k)) = StepRes.retry (ev ((i + 1) + k)) := by
      intro k hk
      have := h (k + 1) (by omega)
      have he : i + (k + 1) = (i + 1) + k := by omega
      rw [he] at this
      exact this
    rw [runAttempts_succ, h0]
    simp only [ih (i + 1) hrest]
    have hfun : (fun k => ev ((i + 1) + k)) = (fun k => ev (i + (k + 1))) := by
      funext k; congr 1; omega
    rw [hfun]
    simp only [List.range_succ_eq_map, List.map_cons, List.map_map, List.flatten_cons]
    congr 2
end DapiSpec

namespace DapiSpec

theorem phNames_cons_lit (c : Char) (rest : List Seg) :
    phNames (Seg.lit c :: rest) = phNames rest := by
  simp [phNames]

theorem phNames_cons_ph (name : String) (rest : List Seg) :
    phNames (Seg.ph name :: rest) = name :: phNames rest := by
  simp [phNames]

theorem renderAll_ok_of_all (ps : List (String × PVal)) :
    ∀ segs : List Seg, (∀ n ∈ phNames segs, (lookupParam ps n).isSome) →
      ∃ cs, renderAll ps segs = Except.ok cs := by
  intro segs
  induction segs with
  | nil => intro _; exact ⟨[], rfl⟩
  | cons sg rest ih =>
    intro h
    cases sg with
    | lit c =>
      rw [phNames_cons_lit] at h
      obtain ⟨cs, hcs⟩ := ih h
      exact ⟨[c] ++ cs, by simp [renderAll, renderSeg, hcs]⟩
    | ph name =>
      rw [phNames_cons_ph] at h
      have hname : (lookupParam ps name).isSome := h name (by simp)
      obtain ⟨v, hv⟩ := Option.isSome_iff_exists.mp hname
      have hrest : ∀ n ∈ phNames rest, (lookupParam ps n).isSome := by
        intro n hn
        exact h n (by simp [hn])
      obtain ⟨cs, hcs⟩ := ih hrest
      exact ⟨v.pyStr.data ++ cs, by simp [renderAll, renderSeg, hv, hcs]⟩

theorem renderAll_err_of_missing (ps : List (String × PVal)) :
    ∀ segs : List Seg, (∃ n ∈ phNames segs, lookupParam ps n = none) →
      ∃ m, renderAll ps segs = Except.error (FmtError.keyError m) ∧ lookupParam ps m = none := by
  intro segs
  induction segs with
  | nil => intro h; simp [phNames] at h
  | cons sg rest ih =>
    intro h
    cases sg with
    | lit c =>
      rw [phNames_cons_lit] at h
      obtain ⟨m, hm, hlm⟩ := ih h
      exact ⟨m, by simp [renderAll, renderSeg, hm], hlm⟩
    | ph name =>
      cases hl : lookupParam ps name with
      | none => exact ⟨name, by simp [renderAll, renderSeg, hl], hl⟩
      | some v =>
        rw [phNames_cons_ph] at h
        have hrest : ∃ n ∈ phNames rest, lookupParam ps n = none := by
          obtain ⟨n, hn, hln⟩ := h
          simp at hn
          rcases hn with rfl | hn
          · rw [hl] at hln; cases hln
          · exact ⟨n, hn, hln⟩
        obtain ⟨m, hm, hlm⟩ := ih hrest
        exact ⟨m, by simp [renderAll, renderSeg, hl, hm], hlm⟩

end DapiSpec

namespace DapiSpec

/-- C1: the claim says a freshly constructed RESTClient has an open
global gate, so the global-gate wait in request() returns immediately.
In the code `asyncio.Event()` starts unset and `__attrs_post_init__`
never sets it, so the very first call suspends forever at
`global_ratelimit.wait()` while holding its bucket lock: the claim
describes the intended behaviour, the code has the bug. -/
theorem c1_global_gate_starts_closed :
    attrsPostInit.globalRatelimit.isSet = false ∧
    ∀ (decode : String → Option J) (resp : Nat → HttpResponse),
      request decode attrsPostInit.globalRatelimit.isSet resp =
        (Outcome.blockedOnGlobal, [Ev.lockAcquire]) :=
  ⟨rfl, fun _ _ => rfl⟩

/-- C2: the claim says every exit path of request() releases the bucket
lock.  Evaluating the code on five consecutive valid non-global 429
responses shows the TooManyRetries exit raising with no release event
of any kind in the trace: the lock stays held forever. -/
theorem c2_retry_exhaustion_keeps_lock :
    request demoDecode429 true (fun _ => demo429Resp) =
      (Outcome.tooMany,
        [Ev.lockAcquire, Ev.sleep 0, Ev.sleep 0, Ev.sleep 0, Ev.sleep 0, Ev.sleep 0]) ∧
    releasesLockB (request demoDecode429 true (fun _ => demo429Resp)).2 = false :=
  ⟨rfl, rfl⟩

/-- C3: on a non-429 response whose remaining-requests header reads "0"
(and whose reset-after header is present with value d), the call's
trace schedules a deferred release after d and performs neither an
immediate release nor any sleep, so the call terminates at once while
the bucket stays blocked for d; in every other non-429 case the lock is
released immediately. -/
theorem c3_deferred_release (decode : String → Option J) (resp : Nat → HttpResponse)
    (h429 : ¬ (resp 0).status = 429) :
    (∀ d : ℚ, (resp 0).ratelimitRemaining = some "0" →
      (resp 0).ratelimitResetAfter = some d →
      (request decode true resp).2 = [Ev.lockAcquire, Ev.lockDeferredRelease d]) ∧
    ((resp 0).ratelimitRemaining ≠ some "0" →
      (request decode true resp).2 = [Ev.lockAcquire, Ev.lockRelease]) := by
  constructor
  · intro d hrem hra
    have hrel : relAction (resp 0) = some (Ev.lockDeferredRelease d) := by
      simp [relAction, hrem, hra]
    obtain ⟨out, hstep⟩ := step_non429 decode (resp 0) _ h429 hrel
    rw [request_done decode resp out _ hstep]
  · intro hrem
    have hrel : relAction (resp 0) = some Ev.lockRelease := by
      simp [relAction, hrem]
    obtain ⟨out, hstep⟩ := step_non429 decode (resp 0) _ h429 hrel
    rw [request_done decode resp out _ hstep]

/-- Witness for c3_deferred_release at concrete inputs. -/
theorem c3_deferred_release_witness :
    (request decodeNone true (fun _ => demoRespDeferred)).2 =
      [Ev.lockAcquire, Ev.lockDeferredRelease 2] ∧
    (request decodeNone true (fun _ => demoRespImmediate)).2 =
      [Ev.lockAcquire, Ev.lockRelease] :=
  ⟨(c3_deferred_release decodeNone (fun _ => demoRespDeferred) (by decide)).1 2 rfl rfl,
   (c3_deferred_release decodeNone (fun _ => demoRespImmediate) (by decide)).2 (by decide)⟩

end DapiSpec

namespace DapiSpec

/-- C4: five consecutive 429 responses, each with a valid JSON payload
marking the limit non-global, are each absorbed by a sleep of the
reported retry_after; the call then fails with TooManyRetries and with
no HTTPException: the trace is exactly the acquisition followed by the
five sleeps. -/
theorem c4_five_429s_too_many_retries (decode : String → Option J)
    (resp : Nat → HttpResponse) (q : Nat → ℚ)
    (h : ∀ i, i < 5 → (resp i).status = 429 ∧
      decode ((resp i).body) = some (payload429 false (q i))) :
    request decode true resp =
      (Outcome.tooMany,
        [Ev.lockAcquire, Ev.sleep (q 0), Ev.sleep (q 1), Ev.sleep (q 2),
          Ev.sleep (q 3), Ev.sleep (q 4)]) := by
  have hstep : ∀ k, k < 5 → step decode (resp (0 + k)) = StepRes.retry [Ev.sleep (q (0 + k))] := by
    intro k hk
    simp only [Nat.zero_add]
    exact step_429_valid decode (resp k) (q k) (h k hk).1 (h k hk).2
  have hrun := runAttempts_all_retry decode resp (fun k => [Ev.sleep (q k)]) 5 0 hstep
  simp only [request, if_pos]
  rw [hrun]
  simp [List.range_succ]

/-- Witness for c4_five_429s_too_many_retries at a concrete input. -/
theorem c4_five_429s_too_many_retries_witness :
    request demoDecode1 true (fun _ => demoResp4) =
      (Outcome.tooMany,
        [Ev.lockAcquire, Ev.sleep 1, Ev.sleep 1, Ev.sleep 1, Ev.sleep 1, Ev.sleep 1]) :=
  c4_five_429s_too_many_retries demoDecode1 (fun _ => demoResp4) (fun _ => 1)
    (fun _ _ => ⟨rfl, rfl⟩)

/-- C7: a 429 whose body does not decode as JSON releases the bucket
lock immediately and raises HTTPException carrying the 429 status and
the raw body text; it does not silently leave the retry loop. -/
theorem c7_429_decode_failure_raises (decode : String → Option J)
    (resp : Nat → HttpResponse) (h1 : (resp 0).status = 429)
    (h2 : decode ((resp 0).body) = none) :
    request decode true resp =
      (Outcome.httpError 429 (HTTPData.raw ((resp 0).body)),
        [Ev.lockAcquire, Ev.lockRelease]) := by
  exact request_done decode resp _ _ (step_429_nodecode decode (resp 0) h1 h2)

/-- Witness for c7_429_decode_failure_raises at a concrete input. -/
theorem c7_429_decode_failure_raises_witness :
    request decodeNone true (fun _ => demoBad429) =
      (Outcome.httpError 429 (HTTPData.raw "oops not json"),
        [Ev.lockAcquire, Ev.lockRelease]) :=
  c7_429_decode_failure_raises decodeNone (fun _ => demoBad429) rfl rfl

end DapiSpec

namespace DapiSpec

/-- Counterexample to C5: dispatching a call with both a form and a
JSON builder, the kwargs handed to the HTTP session contain the JSON
mapping as its own json entry - a separate JSON body IS sent - and the
form data is exactly the builder's fields, with no folded-in
payload_json field. -/
theorem c5_counterexample :
    ((prepareCall none "tok" "ua" (some demoForm) (some demoJson) none none).json
      = some demoJson.inner) ∧
    ((prepareCall none "tok" "ua" (some demoForm) (some demoJson) none none).data
      = some demoForm.fields) ∧
    (demoForm.fields.all (fun fld => fld.name != "payload_json") = true) :=
  ⟨rfl, rfl, rfl⟩

/-- C5 as amended: with both payloads present the Content-Type header
is set for the form (form takes precedence over JSON), but the JSON is
not folded into the form: the session receives the form fields
unchanged as data and the JSON mapping as a separate json body. -/
theorem c5_amended_form_precedence (caller : Option (List (String × String)))
    (token ua : String) (fb : FormBuilder) (jb : JSONBuilder)
    (params : Option (List (String × String))) (reason : Option String) :
    lookupH (prepareCall caller token ua (some fb) (some jb) params reason).headers
      "Content-Type" = some "multipart/form-data" ∧
    (prepareCall caller token ua (some fb) (some jb) params reason).data = some fb.fields ∧
    (prepareCall caller token ua (some fb) (some jb) params reason).json = some jb.inner := by
  refine ⟨?_, rfl, rfl⟩
  simp only [prepareCall, buildKwargs, Option.isSome]
  exact requestHeaders_ct_form caller token ua true reason

/-- Counterexample to C6: two routes with the same template and
parameter values that differ and stringify differently nevertheless
share a bucket key, because a value containing the join separator makes
the colon-joins coincide. -/
theorem c6_counterexample :
    routeColA.bucket = routeColB.bucket ∧
    routeColA.path = routeColB.path ∧
    routeColA.params.map (fun p => p.2.pyStr) ≠ routeColB.params.map (fun p => p.2.pyStr) ∧
    routeColA.params ≠ routeColB.params := by
  refine ⟨rfl, rfl, ?_, ?_⟩ <;> decide

/-- C6 as amended: routes with identical template and identical
parameters have equal bucket keys; the key is the colon-join of the
stringified values (in sorted-key order) followed by a colon and the
raw template; and for a shared template two keys coincide exactly when
the colon-joins of the stringified values coincide - pointwise equal
stringifications suffice, but values containing the separator may also
collide. -/
theorem c6_amended_bucket_key (m1 m2 p : String) (ps1 ps2 : List (String × PVal)) :
    ((Route.make m1 p ps1).bucket = (Route.make m2 p ps2).bucket ↔
      joinedVals (sortParams ps1) = joinedVals (sortParams ps2)) ∧
    (Route.make m1 p ps1).bucket = joinedVals (sortParams ps1) ++ ":" ++ p := by
  constructor
  · exact (str_append_cancel_iff _ _ p).trans (str_append_cancel_iff _ _ ":")
  · rfl

/-- C8: the error normalizer on the two specified payloads yields
exactly the specified triples - the nested-dict example gives path
username, and the array example gives path embeds:0 with the index
stringified into the colon-joined path, leading separator excluded. -/
theorem c8_flatten_examples :
    flatten errInput1 = some [("username", J.s "too long", J.s "LEN")] ∧
    flatten errInput2 = some [("embeds:0", J.s "bad url", J.s "URL")] :=
  ⟨rfl, rfl⟩

/-- C9: for a route whose well-formed template parses into segments, if
every placeholder has a matching parameter then url() succeeds and is
the base URL prepended to the rendering that substitutes every
placeholder; if some placeholder lacks a parameter, url() fails with
the KeyError of a missing placeholder (the spec's TemplateError). -/
theorem c9_url_total_or_template_error (r : Route) (segs : List Seg)
    (hp : parseTemplate r.path = some segs) :
    ((∀ n ∈ phNames segs, (lookupParam r.params n).isSome) →
      ∃ cs, renderAll r.params segs = Except.ok cs ∧
        r.url = Except.ok (BASE_URL ++ String.mk cs)) ∧
    ((∃ n ∈ phNames segs, lookupParam r.params n = none) →
      ∃ m, r.url = Except.error (FmtError.keyError m) ∧ lookupParam r.params m = none) := by
  constructor
  · intro h
    obtain ⟨cs, hcs⟩ := renderAll_ok_of_all r.params segs h
    exact ⟨cs, hcs, by simp [Route.url, formatMap, hp, hcs, Except.map]⟩
  · intro h
    obtain ⟨m, hm, hlm⟩ := renderAll_err_of_missing r.params segs h
    exact ⟨m, by simp [Route.url, formatMap, hp, hm, Except.map], hlm⟩

/-- Witness for c9_url_total_or_template_error: a route with all
parameters supplied interpolates, one with a missing parameter fails
with the missing placeholder's key. -/
theorem c9_url_total_or_template_error_witness :
    (∃ cs, renderAll demoOkRoute.params demoOkSegs = Except.ok cs ∧
      demoOkRoute.url = Except.ok (BASE_URL ++ String.mk cs)) ∧
    (∃ m, demoMissRoute.url = Except.error (FmtError.keyError m) ∧
      lookupParam demoMissRoute.params m = none) :=
  ⟨(c9_url_total_or_template_error demoOkRoute demoOkSegs rfl).1 (by decide),
   (c9_url_total_or_template_error demoMissRoute demoOkSegs rfl).2 ⟨"id", by decide, rfl⟩⟩

/-- C10: whatever headers the caller supplies, the prepared headers map
Authorization to "Bot " plus the token and User-Agent to the client's
user agent (both caller values overwritten), and the caller's own
mapping is left unchanged by the preparation step. -/
theorem c10_auth_ua_overwritten (caller : Option (List (String × String)))
    (token ua : String) (hasForm hasJson : Bool) (reason : Option String) :
    lookupH (requestHeadersStep caller token ua hasForm hasJson reason).1 "Authorization"
      = some ("Bot " ++ token) ∧
    lookupH (requestHeadersStep caller token ua hasForm hasJson reason).1 "User-Agent"
      = some ua ∧
    (requestHeadersStep caller token ua hasForm hasJson reason).2 = caller :=
  ⟨requestHeaders_auth caller token ua hasForm hasJson reason,
   requestHeaders_ua caller token ua hasForm hasJson reason, rfl⟩

end DapiSpec
